import Mathlib

/-!
Verification of the control plane of the CurvatureX/short-drama GPU task
orchestrator.  The definitions below are a shallow embedding of the Python
sources:

  * src/backend/orchestrator/aws/dynamodb.py        (job store helpers)
  * src/backend/orchestrator/sqs_to_comfy_adapter.py (GPU-lane worker adapter)
  * src/backend/comfyui-api-service/sqs_to_comfy_adapter.py (adapter variant)
  * src/backend/orchestrator/orchestrator_api.py    (HTTP facade)
  * src/backend/orchestrator/lambda_shutdown.py     (idle shutdown watcher)

DynamoDB items are modelled as records of optional attributes; the job store
is a total function from task ids to optional items.  External effects (SQS,
the inference engine, EC2) are modelled as environment values consumed by
the translated control flow.  String-valued JSON objects are association
lists, and Python truthiness of strings / dicts is made explicit.
-/

namespace ShortDrama

/-- A string-valued JSON object (the shapes the adapters actually read):
an association list of fields. -/
abbrev Dict := List (String × String)

/-- `d.get(k)` on a Python dict: first binding of `k`, if any. -/
def pyGet (d : Dict) (k : String) : Option String :=
  match d.find? (fun p => p.1 == k) with
  | some p => some p.2
  | none => none

/-- Python truthiness of an optional string: `None` and `""` are falsy. -/
def optTruthy : Option String → Bool
  | none => false
  | some s => !(s == "")

/-- Python truthiness of an optional dict: `None` and `{}` are falsy. -/
def dictOptTruthy : Option Dict → Bool
  | none => false
  | some d => !d.isEmpty

/-- A DynamoDB job item.  Every non-key attribute is optional, exactly as in
the table: `create_task` sets the first four, the adapters add the rest. -/
structure TaskRecord where
  status : Option String := none
  job_type : Option String := none
  created_at : Option Nat := none
  updated_at : Option Nat := none
  result_s3_uri : Option String := none
  error_message : Option String := none
  comfy_job_id : Option String := none
  result_url : Option String := none
  error : Option String := none
  deriving Repr, DecidableEq

/-- The job store: task id to stored item. -/
abbrev Store := String → Option TaskRecord

/-- Status of the item stored under a task id. -/
def getStatus (store : Store) (task_id : String) : Option String :=
  (store task_id).bind fun r => r.status

/-- aws/dynamodb.py `create_task`: conditional `put_item` with
`attribute_not_exists(task_id)`.  `none` models the raised `ValueError`
when the item already exists. -/
def create_task (store : Store) (task_id : String) (job_type : String)
    (now : Nat) (initial_status : String := "pending") : Option Store :=
  if (store task_id).isSome then none
  else some (fun k =>
    if k = task_id then
      some { status := some initial_status, job_type := some job_type,
             created_at := some now, updated_at := some now }
    else store k)

/-- aws/dynamodb.py `update_task_status`: unconditional `update_item` that
SETs `status` and `updated_at` and adds each optional attribute that is not
`None` (the helper tests `is not None`).  DynamoDB creates the item when the
key is absent, so the previous item defaults to the empty record. -/
def update_task_status (store : Store) (task_id : String) (status : String)
    (now : Nat) (result_s3_uri error_message comfy_job_id : Option String) :
    Store :=
  fun k =>
    if k = task_id then
      let r := (store task_id).getD {}
      some { r with
        status := some status
        updated_at := some now
        result_s3_uri := if result_s3_uri.isSome then result_s3_uri else r.result_s3_uri
        error_message := if error_message.isSome then error_message else r.error_message
        comfy_job_id := if comfy_job_id.isSome then comfy_job_id else r.comfy_job_id }
    else store k

/-- The `update_task_status` helper shared (textually) by both adapter
variants: same `update_item`, but each optional attribute is added only when
truthy (`if result_s3_uri:` etc.), so empty strings are dropped. -/
def adapter_update_record (r : TaskRecord) (status : String) (now : Nat)
    (result_s3_uri error_message comfy_job_id : Option String) : TaskRecord :=
  { r with
    status := some status
    updated_at := some now
    result_s3_uri := if optTruthy result_s3_uri then result_s3_uri else r.result_s3_uri
    error_message := if optTruthy error_message then error_message else r.error_message
    comfy_job_id := if optTruthy comfy_job_id then comfy_job_id else r.comfy_job_id }

/-- Store-level form of the adapters' `update_task_status`. -/
def adapter_update_task_status (store : Store) (task_id : String)
    (status : String) (now : Nat)
    (result_s3_uri error_message comfy_job_id : Option String) : Store :=
  fun k =>
    if k = task_id then
      some (adapter_update_record ((store task_id).getD {}) status now
        result_s3_uri error_message comfy_job_id)
    else store k

/-! ## GPU-lane adapter (src/backend/orchestrator/sqs_to_comfy_adapter.py) -/

/-- Result of `json.loads` on an SQS message body, projected to the three
fields the adapters read.  `invalid` is a body that is not valid JSON
(`json.loads` raises).  `task_id` and `api_path` are expected to be JSON
strings; `request_body` a JSON object. -/
inductive MsgBody where
  | invalid : MsgBody
  | parsed (task_id api_path : Option String) (request_body : Option Dict) : MsgBody
  deriving Repr, DecidableEq

/-- Outcome of an HTTP helper (`call_comfyui_api` / `poll_comfyui_status`)
in the GPU-lane adapter.  Both helpers swallow `RequestException`s and
return `None` after their retries, so `ret none` is "ultimately failed";
`raised` is an exception the helper did not catch, which propagates to
`process_task`'s outer `except`. -/
inductive CallResult where
  | raised (msg : String)
  | ret (value : Option Dict)
  deriving Repr, DecidableEq

/-- Environment of one `process_task` run of the GPU-lane adapter: the
decoded message body, whether each DynamoDB write succeeds (indexed by the
static write site, 0 = the initial PROCESSING write), the engine submit and
poll outcomes, whether `delete_message` succeeds, and the clock. -/
structure OrchEnv where
  body : MsgBody
  writeOk : Nat → Bool
  submit : CallResult
  poll : CallResult
  deleteOk : Bool
  now : Nat

/-- Result of `process_task`: its boolean return value (`true` means the
main loop deletes the message) and the job store it leaves behind. -/
structure OrchOutcome where
  success : Bool
  store : Store

/-- One call of the GPU-lane adapter's `update_task_status`, which retries
internally and returns a boolean; a failed call leaves the store unchanged. -/
def orch_write (env : OrchEnv) (store : Store) (site : Nat) (task_id : String)
    (status : String) (result_s3_uri error_message comfy_job_id : Option String) :
    Bool × Store :=
  if env.writeOk site then
    (true, adapter_update_task_status store task_id status env.now
      result_s3_uri error_message comfy_job_id)
  else (false, store)

/-- Steps 1-5 of `process_task` once the body has passed the field check:
PROCESSING write, engine submit, job-id extraction, PROCESSING + job-id
write, engine poll, and the final status write. -/
def orch_pipeline (env : OrchEnv) (store : Store) (t : String) : OrchOutcome :=
  let w0 := orch_write env store 0 t "processing" none none none
  if !w0.1 then ⟨false, w0.2⟩
  else
    match env.submit with
    | .raised _ => ⟨false, w0.2⟩
    | .ret osub =>
      if !(dictOptTruthy osub) then
        let w1 := orch_write env w0.2 1 t "failed" none
          (some "Failed to call ComfyUI API") none
        ⟨true, w1.2⟩
      else
        let cj := pyGet (osub.getD []) "job_id"
        if !(optTruthy cj) then
          let w2 := orch_write env w0.2 2 t "failed" none
            (some "Invalid ComfyUI response: no job_id") none
          ⟨true, w2.2⟩
        else
          let w3 := orch_write env w0.2 3 t "processing" none none cj
          match env.poll with
          | .raised _ => ⟨false, w3.2⟩
          | .ret opoll =>
            if !(dictOptTruthy opoll) then
              let w4 := orch_write env w3.2 4 t "failed" none
                (some "Timeout waiting for ComfyUI job completion") none
              ⟨true, w4.2⟩
            else
              let fd := opoll.getD []
              if pyGet fd "status" == some "completed" then
                let uri := pyGet fd "result_s3_uri"
                if optTruthy uri then
                  let w5 := orch_write env w3.2 5 t "completed" uri none none
                  ⟨true, w5.2⟩
                else
                  let w6 := orch_write env w3.2 6 t "failed" none
                    (some "ComfyUI completed but no result_s3_uri") none
                  ⟨true, w6.2⟩
              else if pyGet fd "status" == some "failed" then
                let em := match pyGet fd "error" with
                  | some e => e
                  | none => "Unknown ComfyUI error"
                let w7 := orch_write env w3.2 7 t "failed" none (some em) none
                ⟨true, w7.2⟩
              else ⟨true, w3.2⟩

/-- `process_task` of the GPU-lane adapter.  A body that fails `json.loads`
raises inside the `try` and returns `False`; a parsed body missing (or with
falsy) `task_id`, `api_path`, or `request_body` is logged and dropped with a
`True` return (`if not all([task_id, api_path, request_body])`). -/
def orch_process_task (env : OrchEnv) (store : Store) : OrchOutcome :=
  match env.body with
  | .invalid => ⟨false, store⟩
  | .parsed otid oap orb =>
    if optTruthy otid && optTruthy oap && dictOptTruthy orb then
      orch_pipeline env store (otid.getD "")
    else ⟨true, store⟩

/-- One iteration of the GPU-lane adapter's `main` loop after a message is
received: run `process_task`, then delete the message iff it returned
`True` (and the SQS delete call itself succeeds). -/
structure MainOutcome where
  store : Store
  messageDeleted : Bool

/-- The receive-process-delete step of `main`. -/
def orch_main_iteration (env : OrchEnv) (store : Store) : MainOutcome :=
  let out := orch_process_task env store
  if out.success then ⟨out.store, env.deleteOk⟩ else ⟨out.store, false⟩

/-! ## Adapter variant (src/backend/comfyui-api-service/sqs_to_comfy_adapter.py)

This variant is exception-driven: `update_task_status` re-raises on
failure, the engine submit and poll raise on failure, and `process_task`'s
single outer `except` writes FAILED with `str(e)` and leaves the message in
the queue.  `json.loads` runs before the `try`, so a non-JSON body raises
out of `process_task` into the main loop (which never deletes). -/

/-- Environment of one run of the variant's `process_task`.  `writeErr`
gives the exception text of the DynamoDB write at each static site (`none`
is success); `submit` models `requests.post` + `raise_for_status` +
`.json()`; `poll` models `poll_comfyui_status`, whose timeout and shutdown
paths raise; `deleteErr` is a failure of `sqs_client.delete_message`. -/
structure ComfyEnv where
  body : MsgBody
  writeErr : Nat → Option String
  submit : Except String Dict
  poll : Except String Dict
  deleteErr : Option String
  now : Nat

/-- Result of the variant's `process_task`: the store left behind, whether
the SQS message was deleted, and the exception escaping the function, if
any (only the `json.loads` of a malformed body can escape). -/
structure ComfyOutcome where
  store : Store
  deleted : Bool
  raised : Option String

/-- One call of the variant's `update_task_status`.  The task id comes
straight from the message; a missing or empty id makes the DynamoDB call
raise (key validation), and any store failure re-raises. -/
def comfy_write (env : ComfyEnv) (store : Store) (site : Nat)
    (otid : Option String) (status : String)
    (result_s3_uri error_message comfy_job_id : Option String) :
    Except String Store :=
  match otid with
  | none => Except.error "Parameter validation failed: invalid task_id key"
  | some t =>
    if t == "" then Except.error "ValidationException: empty task_id key"
    else
      match env.writeErr site with
      | some m => Except.error m
      | none => Except.ok (adapter_update_task_status store t status env.now
          result_s3_uri error_message comfy_job_id)

/-- The outer `except Exception as e` of the variant's `process_task`:
attempt to write FAILED with `str(e)` (site 9; its own failure is
swallowed) and do not delete the message. -/
def comfy_catch (env : ComfyEnv) (store : Store) (otid : Option String)
    (msg : String) : ComfyOutcome :=
  match comfy_write env store 9 otid "failed" none (some msg) none with
  | .ok s => ⟨s, false, none⟩
  | .error _ => ⟨store, false, none⟩

/-- Step 5 of the variant (`delete_message`): a raising delete is caught by
the outer `except`, which then marks the job FAILED. -/
def comfy_delete (env : ComfyEnv) (store : Store) (otid : Option String) :
    ComfyOutcome :=
  match env.deleteErr with
  | none => ⟨store, true, none⟩
  | some e => comfy_catch env store otid e

/-- Final status handling of the variant's `process_task` (step 4): write
COMPLETED with whatever `result_s3_uri` the engine reported (possibly
nothing), or FAILED with `final_status.get('error', 'Unknown error')`; any
other status skips the write; then delete the message. -/
def comfy_finalize (env : ComfyEnv) (store : Store) (otid : Option String)
    (st : String) (fd : Dict) : ComfyOutcome :=
  if st == "completed" then
    match comfy_write env store 2 otid "completed" (pyGet fd "result_s3_uri")
        none none with
    | .error e => comfy_catch env store otid e
    | .ok s2 => comfy_delete env s2 otid
  else if st == "failed" then
    match comfy_write env store 3 otid "failed" none
        (some ((pyGet fd "error").getD "Unknown error")) none with
    | .error e => comfy_catch env store otid e
    | .ok s2 => comfy_delete env s2 otid
  else comfy_delete env store otid

/-- The variant's `process_task`.  Note the absence of any field check on
the parsed body: a missing `task_id` only fails once the first DynamoDB
write rejects the key. -/
def comfy_process_task (env : ComfyEnv) (store : Store) : ComfyOutcome :=
  match env.body with
  | .invalid => ⟨store, false, some "json.loads: Expecting value"⟩
  | .parsed otid _oap _orb =>
    match comfy_write env store 0 otid "processing" none none none with
    | .error e => comfy_catch env store otid e
    | .ok s0 =>
      match env.submit with
      | .error e => comfy_catch env s0 otid e
      | .ok d =>
        if !(optTruthy (pyGet d "job_id")) then
          comfy_catch env s0 otid "ComfyUI did not return a job_id"
        else
          match comfy_write env s0 1 otid "processing" none none
              (pyGet d "job_id") with
          | .error e => comfy_catch env s0 otid e
          | .ok s1 =>
            match env.poll with
            | .error e => comfy_catch env s1 otid e
            | .ok fd =>
              match pyGet fd "status" with
              | none => comfy_catch env s1 otid "KeyError: status"
              | some st => comfy_finalize env s1 otid st fd

/-! ## HTTP facade (src/backend/orchestrator/orchestrator_api.py) -/

/-- The `JobResponse` pydantic model returned by the facade. -/
structure JobResponse where
  job_id : String
  status : String
  result_url : Option String
  error : Option String
  deriving Repr, DecidableEq

/-- Python `a or b` on two optional strings: `a` when truthy, else `b`. -/
def pyOr (a b : Option String) : Option String :=
  if optTruthy a then a else b

/-- The projection `get_job_status` builds from a stored item:
`status=task.get('status','unknown')`,
`result_url=task.get('result_url') or task.get('result_s3_uri')`,
`error=task.get('error') or task.get('error_message')`. -/
def projectJob (job_id : String) (r : TaskRecord) : JobResponse :=
  { job_id := job_id
    status := r.status.getD "unknown"
    result_url := pyOr r.result_url r.result_s3_uri
    error := pyOr r.error r.error_message }

/-- Result of `GET /api/v1/jobs/{job_id}`: how many point reads were
issued, the HTTP status, and the body when 200. -/
structure StatusReadOutcome where
  reads : Nat
  statusCode : Nat
  body : Option JobResponse
  deriving Repr, DecidableEq

/-- `get_job_status`: one point read; if it misses, sleep one second and
read once more; 404 iff still missing, otherwise 200 with the projection.
`first` and `second` are what the two reads would return. -/
def get_job_status (job_id : String) (first second : Option TaskRecord) :
    StatusReadOutcome :=
  match first with
  | some r => ⟨1, 200, some (projectJob job_id r)⟩
  | none =>
    match second with
    | some r => ⟨2, 200, some (projectJob job_id r)⟩
    | none => ⟨2, 404, none⟩

/-- Environment of one `submit_task` call: whether the DynamoDB `put_item`
raises a `ClientError`, whether `send_message` raises, the EC2 describe
result seen by `ensure_gpu_running` (`ok none` is instance-not-found), and
the clock. -/
structure SubmitEnv where
  storeErr : Bool
  queueErr : Bool
  gpuState : Except String (Option String)
  now : Nat

/-- Result of `submit_task` at the endpoint level: HTTP status (202 on the
happy path; `HTTPException` 500 otherwise), the job store, the number of
`send_message` calls made, and the number of `start_instance` calls. -/
structure SubmitOutcome where
  statusCode : Nat
  store : Store
  sendAttempts : Nat
  gpuStartCalls : Nat

/-- `ensure_gpu_running`: describe the instance and start it only from
`stopped`; every failure is swallowed. Returns the start-call count. -/
def ensure_gpu_running (g : Except String (Option String)) : Nat :=
  match g with
  | .error _ => 0
  | .ok none => 0
  | .ok (some st) => if st == "stopped" then 1 else 0

/-- `submit_task`: generate an id, put-if-absent PENDING, enqueue, wake the
GPU, return.  A store failure (error or existing id) raises HTTP 500 before
any `send_message` call; an enqueue failure raises HTTP 500 after exactly
one attempt and before `ensure_gpu_running`. -/
def submit_task (env : SubmitEnv) (store : Store) (task_id api_path : String) :
    SubmitOutcome :=
  if env.storeErr then ⟨500, store, 0, 0⟩
  else
    match create_task store task_id api_path env.now with
    | none => ⟨500, store, 0, 0⟩
    | some store1 =>
      if env.queueErr then ⟨500, store1, 1, 0⟩
      else ⟨202, store1, 1, ensure_gpu_running env.gpuState⟩

/-- Response of `GET /health`: FastAPI returns the handler's dict, so the
HTTP status is always 200; component health is reported in the body. -/
structure HealthOutcome where
  statusCode : Nat
  statusStr : String
  dynamodbComponent : String
  sqsComponent : String
  deriving Repr, DecidableEq

/-- `health_check`: probe DynamoDB (`describe_table`) and SQS
(`get_queue_attributes`); fold the two component strings into an overall
`healthy`/`unhealthy` status field, returned as a plain dict. -/
def health_check (dbOk sqsOk : Bool) : HealthOutcome :=
  { statusCode := 200
    statusStr := if dbOk && sqsOk then "healthy" else "unhealthy"
    dynamodbComponent := if dbOk then "healthy" else "unhealthy: describe_table raised"
    sqsComponent := if sqsOk then "healthy" else "unhealthy: get_queue_attributes raised" }

/-! ## Idle shutdown watcher (src/backend/orchestrator/lambda_shutdown.py,
     alarm wiring in src/backend/infra/stacks/alarm_stack.py) -/

/-- The event delivered to `lambda_handler`: an SNS-wrapped CloudWatch
alarm notification carrying `NewStateValue`, a direct CloudWatch event
carrying `detail.state.value`, or anything else (which the code lets fall
through to the instance check). -/
inductive AlarmEvent where
  | sns (newStateValue : Option String)
  | cloudwatch (stateValue : Option String)
  | other
  deriving Repr, DecidableEq

/-- EC2 environment of one lambda invocation: the `describe_instances`
outcome (`ok none` is an empty reservation list) and whether
`stop_instances` raises. -/
structure Ec2Env where
  describe : Except String (Option String)
  stopErr : Option String

/-- Result of `lambda_handler`: the status code of the returned response
and how many `stop_instances` calls were issued. -/
structure LambdaOutcome where
  statusCode : Nat
  stopCalls : Nat
  deriving Repr, DecidableEq

/-- The alarm-state gate at the top of `lambda_handler`: an SNS event
proceeds iff `NewStateValue == 'ALARM'`; a CloudWatch event iff
`detail.state.value` (default `'UNKNOWN'`) equals `'ALARM'`; any other
event shape skips the gate entirely. -/
def alarm_gate_passes : AlarmEvent → Bool
  | .sns st => st == some "ALARM"
  | .cloudwatch st => st.getD "UNKNOWN" == "ALARM"
  | .other => true

/-- `lambda_handler`: gate on the alarm state, describe the GPU instance,
and stop it iff it is `running`; `stopped`/`stopping` are no-ops, any other
state returns 400, a missing instance 404, and an exception 500. -/
def lambda_handler (ev : AlarmEvent) (ec2 : Ec2Env) : LambdaOutcome :=
  if !(alarm_gate_passes ev) then ⟨200, 0⟩
  else
    match ec2.describe with
    | .error _ => ⟨500, 0⟩
    | .ok none => ⟨404, 0⟩
    | .ok (some st) =>
      if st == "running" then
        match ec2.stopErr with
        | none => ⟨200, 1⟩
        | some _ => ⟨500, 1⟩
      else if st == "stopped" || st == "stopping" then ⟨200, 0⟩
      else ⟨400, 0⟩

/-! ## Small evaluation lemmas shared by the proofs -/

theorem optTruthy_none : optTruthy none = false := rfl

theorem optTruthy_some (s : String) : optTruthy (some s) = !(s == "") := rfl

theorem dictOptTruthy_none : dictOptTruthy none = false := rfl

theorem dictOptTruthy_some (d : Dict) : dictOptTruthy (some d) = !d.isEmpty := rfl

/-! ## Claim theorems -/

/-- A store holding a single job that has already reached the terminal
status `completed`, with its artifact recorded. -/
def c1_store : Store := fun k =>
  if k = "t1" then
    some { status := some "completed", job_type := some "/api/v1/camera-angle/jobs",
           created_at := some 100, updated_at := some 150,
           result_s3_uri := some "s3://bucket/out.png" }
  else none

/-- C1 counterexample: `update_task_status` carries no condition expression,
so a later write moves a COMPLETED record straight back to `processing`;
terminal statuses are not write-protected at the store layer. -/
theorem terminal_status_overwritten_cex :
    getStatus c1_store "t1" = some "completed"
    ∧ getStatus (update_task_status c1_store "t1" "processing" 200 none none none) "t1"
        = some "processing"
    ∧ getStatus (adapter_update_task_status c1_store "t1" "processing" 200 none none none) "t1"
        = some "processing" := by
  refine ⟨rfl, ?_, ?_⟩ <;> rfl

/-- C1 amended: both store-layer update helpers are unconditional
last-writer-wins — after any update the stored status equals the status
argument, whatever status (terminal or not) the record held before. -/
theorem store_update_last_writer_wins
    (store : Store) (t s : String) (now : Nat)
    (uri err cj : Option String) :
    getStatus (update_task_status store t s now uri err cj) t = some s
    ∧ getStatus (adapter_update_task_status store t s now uri err cj) t = some s := by
  constructor <;>
    simp [getStatus, update_task_status, adapter_update_task_status, adapter_update_record]

/-- C4: if the put-if-absent PENDING write fails — whether the store call
raises or the id already exists — `submit_task` raises HTTP 500 before any
`send_message` call: no message reaches any queue, the store is unchanged,
and the GPU is not started. -/
theorem submit_store_failure_no_enqueue
    (env : SubmitEnv) (store : Store) (task_id api_path : String)
    (h : env.storeErr = true ∨ (store task_id).isSome = true) :
    (submit_task env store task_id api_path).statusCode = 500
    ∧ (submit_task env store task_id api_path).sendAttempts = 0
    ∧ (submit_task env store task_id api_path).store = store
    ∧ (submit_task env store task_id api_path).gpuStartCalls = 0 := by
  rcases h with h | h
  · simp [submit_task, h]
  · simp [submit_task, create_task, h]

/-- C4 witness: a concrete submit with a raising store write. -/
theorem submit_store_failure_no_enqueue_witness :
    (submit_task ⟨true, false, Except.ok (some "stopped"), 10⟩ (fun _ => none)
      "w-1" "/api/v1/camera-angle/jobs").statusCode = 500
    ∧ (submit_task ⟨true, false, Except.ok (some "stopped"), 10⟩ (fun _ => none)
      "w-1" "/api/v1/camera-angle/jobs").sendAttempts = 0 :=
  ⟨(submit_store_failure_no_enqueue _ _ _ _ (Or.inl rfl)).1,
   (submit_store_failure_no_enqueue _ _ _ _ (Or.inl rfl)).2.1⟩

/-- C7: `get_job_status` makes one point read, plus exactly one retry read
iff the first read misses; it answers 404 iff the record is missing on both
reads, and otherwise 200 with the projection of the record it found. -/
theorem get_status_retry_contract
    (job_id : String) (first second : Option TaskRecord) :
    (get_job_status job_id first second).reads = (if first.isSome then 1 else 2)
    ∧ ((get_job_status job_id first second).statusCode = 404
        ↔ (first = none ∧ second = none))
    ∧ (∀ r : TaskRecord, (if first.isSome then first else second) = some r →
        (get_job_status job_id first second).statusCode = 200
        ∧ (get_job_status job_id first second).body = some (projectJob job_id r)) := by
  cases first <;> cases second <;> simp [get_job_status]

/-- C7 witness: a first-read miss followed by a hit answers 200 with the
record projection after exactly two reads. -/
theorem get_status_retry_contract_witness :
    (get_job_status "j7" none (some { status := some "pending" })).reads = 2
    ∧ (get_job_status "j7" none (some { status := some "pending" })).statusCode = 200 :=
  ⟨by
    have h := (get_status_retry_contract "j7" none (some { status := some "pending" })).1
    simpa using h,
   ((get_status_retry_contract "j7" none (some { status := some "pending" })).2.2
      { status := some "pending" } rfl).1⟩

/-- C8 counterexample: with DynamoDB unreachable the health endpoint still
answers HTTP 200 (FastAPI returns the handler's dict), not 503; only the
body reports the outage. -/
theorem health_unreachable_returns_200_cex :
    (health_check false true).statusCode = 200
    ∧ (health_check false true).statusCode ≠ 503
    ∧ (health_check false true).dynamodbComponent ≠ "healthy"
    ∧ (health_check false true).statusStr = "unhealthy" := by
  refine ⟨rfl, by decide, by decide, rfl⟩

/-- C8 amended: the health endpoint checks that the job store and the queue
are reachable and reports the result in the response body — the overall
status field is `healthy` iff both probes succeed — but the HTTP status
code is 200 in every case; 503 is never returned. -/
theorem health_always_200 (dbOk sqsOk : Bool) :
    (health_check dbOk sqsOk).statusCode = 200
    ∧ ((health_check dbOk sqsOk).statusStr = "healthy"
        ↔ (dbOk = true ∧ sqsOk = true)) := by
  cases dbOk <;> cases sqsOk <;> simp [health_check]

/-- The alarm notification says the idle alarm entered ALARM state (six
consecutive 5-minute samples of the GPU-lane visible-message average at or
below zero, per the alarm stack's threshold 0 / 6-of-6 configuration). -/
def alarm_in_alarm_state (ev : AlarmEvent) : Prop :=
  ev = AlarmEvent.sns (some "ALARM") ∨ ev = AlarmEvent.cloudwatch (some "ALARM")

/-- C6: when the idle alarm fires in ALARM state and the instance is
found, the watcher issues a stop iff the described state is `running` —
exactly one stop call — and issues none when the host is already stopped
or stopping. -/
theorem idle_shutdown_stop_iff_running
    (ev : AlarmEvent) (ec2 : Ec2Env) (st : String)
    (halarm : alarm_in_alarm_state ev)
    (hdesc : ec2.describe = Except.ok (some st)) :
    ((lambda_handler ev ec2).stopCalls = 1 ↔ st = "running")
    ∧ ((st = "stopped" ∨ st = "stopping") → (lambda_handler ev ec2).stopCalls = 0) := by
  have hg : alarm_gate_passes ev = true := by
    rcases halarm with h | h <;> simp [h, alarm_gate_passes]
  by_cases hr : st = "running"
  · subst hr
    refine ⟨?_, ?_⟩
    · cases hstop : ec2.stopErr <;> simp [lambda_handler, hg, hdesc, hstop]
    · rintro (h | h) <;> exact absurd h (by decide)
  · have hb : (st == "running") = false := by simp [hr]
    have h0 : (lambda_handler ev ec2).stopCalls = 0 := by
      cases hc : (st == "stopped" || st == "stopping") <;>
        simp [lambda_handler, hg, hdesc, hb, hc]
    refine ⟨⟨fun h1 => ?_, fun h => absurd h hr⟩, fun _ => h0⟩
    rw [h0] at h1
    exact absurd h1 (by decide)

/-- C6 witness: a running host is stopped exactly once; a stopped host is
left alone. -/
theorem idle_shutdown_stop_iff_running_witness :
    (lambda_handler (AlarmEvent.sns (some "ALARM"))
      ⟨Except.ok (some "running"), none⟩).stopCalls = 1
    ∧ (lambda_handler (AlarmEvent.sns (some "ALARM"))
      ⟨Except.ok (some "stopped"), none⟩).stopCalls = 0 :=
  ⟨(idle_shutdown_stop_iff_running _ ⟨Except.ok (some "running"), none⟩ "running"
      (Or.inl rfl) rfl).1.mpr rfl,
   (idle_shutdown_stop_iff_running _ ⟨Except.ok (some "stopped"), none⟩ "stopped"
      (Or.inl rfl) rfl).2 (Or.inl rfl)⟩

/-- A stored record whose `error` attribute is present but empty while
`error_message` carries the adapter's text. -/
def c9_record : TaskRecord :=
  { status := some "failed", error := some "", error_message := some "engine exploded" }

/-- C9 counterexample: the projection uses Python `or`, so a present-but-
empty `error` attribute is skipped in favour of `error_message` — the
response is not the record's `error` field even though that field is set. -/
theorem projection_error_field_cex :
    c9_record.error.isSome = true
    ∧ (projectJob "j9" c9_record).error ≠ c9_record.error
    ∧ (projectJob "j9" c9_record).error = some "engine exploded" := by
  refine ⟨rfl, by decide, rfl⟩

/-- C9 amended: `get_job_status` coalesces writer field names by Python
truthiness — `result_url` is the record's `result_url` when set and
non-empty, else `result_s3_uri`; `error` is the record's `error` when set
and non-empty, else `error_message` — so artifacts and errors the adapter
writes under `result_s3_uri`/`error_message` surface to clients as
`result_url`/`error`. -/
theorem status_projection_coalesces :
    (∀ (jid : String) (r : TaskRecord),
      (projectJob jid r).result_url
          = (if optTruthy r.result_url then r.result_url else r.result_s3_uri)
      ∧ (projectJob jid r).error
          = (if optTruthy r.error then r.error else r.error_message))
    ∧ (∀ (jid : String) (r : TaskRecord) (now : Nat) (uri : String), uri ≠ "" →
        optTruthy r.result_url = false →
        (projectJob jid
            (adapter_update_record r "completed" now (some uri) none none)).result_url
          = some uri)
    ∧ (∀ (jid : String) (r : TaskRecord) (now : Nat) (em : String), em ≠ "" →
        optTruthy r.error = false →
        (projectJob jid
            (adapter_update_record r "failed" now none (some em) none)).error
          = some em) := by
  refine ⟨fun jid r => ⟨rfl, rfl⟩, ?_, ?_⟩
  · intro jid r now uri hu hr
    have h1 : optTruthy (some uri) = true := by simp [optTruthy, hu]
    simp [projectJob, adapter_update_record, pyOr, hr, h1]
  · intro jid r now em he hr
    have h1 : optTruthy (some em) = true := by simp [optTruthy, he]
    simp [projectJob, adapter_update_record, pyOr, hr, h1]

/-- C9 witness: a COMPLETED write under `result_s3_uri` is visible to the
client as `result_url`. -/
theorem status_projection_coalesces_witness :
    (projectJob "jw"
      (adapter_update_record {} "completed" 5 (some "s3://b/w.png") none none)).result_url
      = some "s3://b/w.png" :=
  status_projection_coalesces.2.1 "jw" {} 5 "s3://b/w.png" (by decide) rfl

/-- C10: in the GPU-lane adapter, a parsed body whose `task_id`,
`api_path`, or `request_body` is absent or falsy makes `process_task`
report success with no status write, and the main loop then deletes the
message — the store is untouched. -/
theorem falsy_fields_treated_as_malformed
    (env : OrchEnv) (store : Store) (otid oap : Option String) (orb : Option Dict)
    (hb : env.body = MsgBody.parsed otid oap orb)
    (hf : (optTruthy otid && optTruthy oap && dictOptTruthy orb) = false)
    (hd : env.deleteOk = true) :
    (orch_process_task env store).success = true
    ∧ (orch_process_task env store).store = store
    ∧ (orch_main_iteration env store).messageDeleted = true := by
  refine ⟨?_, ?_, ?_⟩ <;>
    simp [orch_process_task, orch_main_iteration, hb, hf, hd]

/-- A received message whose body is JSON but whose `request_body` is the
empty object. -/
def c10_env : OrchEnv :=
  { body := MsgBody.parsed (some "t10") (some "/api/v1/camera-angle/jobs") (some [])
    writeOk := fun _ => true
    submit := CallResult.ret none
    poll := CallResult.ret none
    deleteOk := true
    now := 0 }

/-- C10 witness: with `request_body = {}` the message is deleted and the
store left unchanged. -/
theorem falsy_fields_treated_as_malformed_witness :
    (orch_process_task c10_env (fun _ => none)).success = true
    ∧ (orch_main_iteration c10_env (fun _ => none)).messageDeleted = true := by
  have h := falsy_fields_treated_as_malformed c10_env (fun _ => none)
    (some "t10") (some "/api/v1/camera-angle/jobs") (some []) rfl (by decide) rfl
  exact ⟨h.1, h.2.2⟩

/-- A received message whose body is not valid JSON. -/
def c3_env : OrchEnv :=
  { body := MsgBody.invalid
    writeOk := fun _ => true
    submit := CallResult.ret none
    poll := CallResult.ret none
    deleteOk := true
    now := 0 }

/-- C3 counterexample: a body that `json.loads` cannot parse makes the
GPU-lane adapter's `process_task` raise into its outer `except` and return
`False`, so the main loop does NOT delete the message — it stays in the
queue and is redelivered, contrary to the claim. -/
theorem malformed_message_not_deleted_cex :
    (orch_process_task c3_env (fun _ => none)).success = false
    ∧ (orch_main_iteration c3_env (fun _ => none)).messageDeleted = false
    ∧ getStatus (orch_process_task c3_env (fun _ => none)).store "t" = none := by
  exact ⟨rfl, rfl, rfl⟩

/-- C3 amended: in the GPU-lane adapter, only a body that parses as JSON
but lacks a truthy `task_id`, `api_path`, or `request_body` is dropped with
a success return (and hence deleted); a body that fails JSON parsing makes
`process_task` return `False`, the message is not deleted, and it is
redelivered until the queue's own DLQ policy removes it.  In both cases the
job store is untouched. -/
theorem orch_malformed_handling :
    (∀ (env : OrchEnv) (store : Store), env.body = MsgBody.invalid →
      (orch_process_task env store).success = false
      ∧ (orch_process_task env store).store = store
      ∧ (orch_main_iteration env store).messageDeleted = false)
    ∧ (∀ (env : OrchEnv) (store : Store) (otid oap : Option String) (orb : Option Dict),
        env.body = MsgBody.parsed otid oap orb →
        (optTruthy otid && optTruthy oap && dictOptTruthy orb) = false →
        (orch_process_task env store).success = true
        ∧ (orch_process_task env store).store = store) := by
  constructor
  · intro env store hb
    refine ⟨?_, ?_, ?_⟩ <;> simp [orch_process_task, orch_main_iteration, hb]
  · intro env store otid oap orb hb hf
    refine ⟨?_, ?_⟩ <;> simp [orch_process_task, hb, hf]

/-- C3 witness: the invalid-JSON message is kept, the falsy-fields message
is dropped. -/
theorem orch_malformed_handling_witness :
    (orch_process_task c3_env (fun _ => none)).success = false
    ∧ (orch_process_task c10_env (fun _ => none)).success = true :=
  ⟨(orch_malformed_handling.1 c3_env (fun _ => none) rfl).1,
   (orch_malformed_handling.2 c10_env (fun _ => none)
      (some "t10") (some "/api/v1/camera-angle/jobs") (some []) rfl (by decide)).1⟩

/-- C5 amended: in the GPU-lane adapter, when `call_comfyui_api` exhausts
its retries and returns `None`, `process_task` writes FAILED with the fixed
network-error text and returns success, so the main loop deletes the
message and it is never redelivered.  (In the comfyui-api-service variant a
submit failure instead leaves the message in the queue; see the
counterexample.) -/
theorem orch_submit_failure_terminal
    (env : OrchEnv) (store : Store) (otid oap : Option String) (orb : Option Dict)
    (hb : env.body = MsgBody.parsed otid oap orb)
    (hf : (optTruthy otid && optTruthy oap && dictOptTruthy orb) = true)
    (hw0 : env.writeOk 0 = true) (hw1 : env.writeOk 1 = true)
    (hsub : env.submit = CallResult.ret none)
    (hd : env.deleteOk = true) :
    (orch_process_task env store).success = true
    ∧ getStatus (orch_process_task env store).store (otid.getD "") = some "failed"
    ∧ ((orch_process_task env store).store (otid.getD "")).bind (fun r => r.error_message)
        = some "Failed to call ComfyUI API"
    ∧ (orch_main_iteration env store).messageDeleted = true := by
  have hmsg : optTruthy (some "Failed to call ComfyUI API") = true := by decide
  refine ⟨?_, ?_, ?_, ?_⟩ <;>
    simp [orch_process_task, orch_pipeline, orch_write, orch_main_iteration,
      getStatus, adapter_update_task_status, adapter_update_record,
      optTruthy_none, dictOptTruthy_none, hmsg, hb, hf, hw0, hw1, hsub, hd]

/-- A well-formed message whose engine submit fails all retries. -/
def c5_env : OrchEnv :=
  { body := MsgBody.parsed (some "t5") (some "/api/v1/camera-angle/jobs")
      (some [("image_url", "https://ex/a.png")])
    writeOk := fun _ => true
    submit := CallResult.ret none
    poll := CallResult.ret none
    deleteOk := true
    now := 7 }

/-- C5 witness: the submit failure ends in FAILED plus deletion. -/
theorem orch_submit_failure_terminal_witness :
    getStatus (orch_process_task c5_env (fun _ => none)).store "t5" = some "failed"
    ∧ (orch_main_iteration c5_env (fun _ => none)).messageDeleted = true := by
  have h := orch_submit_failure_terminal c5_env (fun _ => none)
    (some "t5") (some "/api/v1/camera-angle/jobs") (some [("image_url", "https://ex/a.png")])
    rfl (by decide) rfl rfl rfl rfl
  exact ⟨h.2.1, h.2.2.2⟩

/-- A PENDING record for the given task id, as admission leaves it. -/
def pending_store (t : String) : Store := fun k =>
  if k = t then
    some { status := some "pending", job_type := some "/api/v1/camera-angle/jobs",
           created_at := some 1, updated_at := some 1 }
  else none

/-- The comfyui-api-service adapter facing an engine whose submit POST
raises a connection error. -/
def c5c_env : ComfyEnv :=
  { body := MsgBody.parsed (some "t9") (some "/api/v1/camera-angle/jobs")
      (some [("image_url", "https://ex/a.png")])
    writeErr := fun _ => none
    submit := Except.error "Connection refused"
    poll := Except.ok []
    deleteErr := none
    now := 3 }

/-- C5 counterexample: in the comfyui-api-service adapter a submit failure
is caught by the outer `except`, which writes FAILED but does NOT delete
the message — it becomes visible again and is redelivered, contrary to the
claim that a submit failure never leads to redelivery. -/
theorem comfy_submit_failure_not_deleted_cex :
    (comfy_process_task c5c_env (pending_store "t9")).deleted = false
    ∧ getStatus (comfy_process_task c5c_env (pending_store "t9")).store "t9" = some "failed"
    ∧ ((comfy_process_task c5c_env (pending_store "t9")).store "t9").bind
        (fun r => r.error_message) = some "Connection refused" := by
  exact ⟨rfl, rfl, rfl⟩

/-- The comfyui-api-service adapter facing an engine that reports
completion without a `result_s3_uri`. -/
def c2_env : ComfyEnv :=
  { body := MsgBody.parsed (some "t2") (some "/api/v1/camera-angle/jobs")
      (some [("image_url", "https://ex/a.png")])
    writeErr := fun _ => none
    submit := Except.ok [("job_id", "cj-77")]
    poll := Except.ok [("status", "completed")]
    deleteErr := none
    now := 4 }

/-- C2 counterexample: when the engine reports `completed` with no
`result_s3_uri`, the comfyui-api-service adapter still writes COMPLETED
(the truthiness check merely drops the attribute) and deletes the message,
leaving a COMPLETED record with an empty `result_s3_uri`. -/
theorem completed_without_result_cex :
    getStatus (comfy_process_task c2_env (pending_store "t2")).store "t2"
      = some "completed"
    ∧ ((comfy_process_task c2_env (pending_store "t2")).store "t2").bind
        (fun r => r.result_s3_uri) = none
    ∧ (comfy_process_task c2_env (pending_store "t2")).deleted = true := by
  exact ⟨rfl, rfl, rfl⟩

/-- The terminal-field invariant of spec §3, on one stored item: a
COMPLETED record carries a non-empty `result_s3_uri`, a FAILED record a
non-empty `error_message`. -/
def recordClosed : Option TaskRecord → Prop
  | none => True
  | some r =>
    (r.status = some "completed" → optTruthy r.result_s3_uri = true)
    ∧ (r.status = some "failed" → optTruthy r.error_message = true)

/-- Side condition for the GPU-lane adapter's FAILED writes: whenever the
engine's final status object is consulted, its `error` field is not the
empty string (absent is fine — the adapter substitutes a default). -/
def pollErrorNonEmpty (env : OrchEnv) : Prop :=
  ∀ d : Dict, env.poll = CallResult.ret (some d) → pyGet d "error" ≠ some ""

/-- The adapters' `update_task_status` preserves the terminal-field
invariant whenever the write itself pairs COMPLETED with a truthy
`result_s3_uri` and FAILED with a truthy `error_message`. -/
theorem adapter_update_closed
    (store : Store) (t s : String) (now : Nat)
    (uri err cj : Option String) (k : String)
    (h : recordClosed (store k))
    (hc : s = "completed" → optTruthy uri = true)
    (hf : s = "failed" → optTruthy err = true) :
    recordClosed ((adapter_update_task_status store t s now uri err cj) k) := by
  unfold adapter_update_task_status
  by_cases hk : k = t
  · simp only [hk, if_pos]
    unfold recordClosed adapter_update_record
    refine ⟨?_, ?_⟩
    · intro hs
      have hs' : s = "completed" := by simpa using hs
      simp [hc hs']
    · intro hs
      have hs' : s = "failed" := by simpa using hs
      simp [hf hs']
  · simp only [hk, if_neg, if_false]
    exact h

/-- `orch_write` preserves the terminal-field invariant under the same
write-level side conditions (a failed write leaves the store unchanged). -/
theorem orch_write_closed
    (env : OrchEnv) (store : Store) (site : Nat) (t s : String)
    (uri err cj : Option String) (k : String)
    (h : recordClosed (store k))
    (hc : s = "completed" → optTruthy uri = true)
    (hf : s = "failed" → optTruthy err = true) :
    recordClosed ((orch_write env store site t s uri err cj).2 k) := by
  unfold orch_write
  by_cases hw : env.writeOk site = true
  · simp only [hw, if_pos]
    exact adapter_update_closed store t s env.now uri err cj k h hc hf
  · simp only [hw, if_neg, if_false]
    exact h

/-- The boolean result of `orch_write` is exactly the environment's verdict
for that write site. -/
theorem orch_write_fst (env : OrchEnv) (store : Store) (site : Nat) (t s : String)
    (uri err cj : Option String) :
    (orch_write env store site t s uri err cj).1 = env.writeOk site := by
  unfold orch_write
  by_cases h : env.writeOk site = true <;> simp [h]

/-- Every store the GPU-lane pipeline can leave behind satisfies the
terminal-field invariant, provided the incoming store does and the engine
never reports a failure with an empty-string `error`. -/
theorem orch_pipeline_closed
    (env : OrchEnv) (store : Store) (t : String)
    (h0 : ∀ k, recordClosed (store k))
    (hpoll : pollErrorNonEmpty env) :
    ∀ k, recordClosed ((orch_pipeline env store t).store k) := by
  intro k
  have hproc : ∀ (st : Store) (site : Nat) (cj : Option String), recordClosed (st k) →
      recordClosed ((orch_write env st site t "processing" none none cj).2 k) := by
    intro st site cj h
    exact orch_write_closed env st site t "processing" none none cj k h
      (fun hcon => absurd hcon (by decide)) (fun hcon => absurd hcon (by decide))
  have hfailw : ∀ (st : Store) (site : Nat) (msg : String), ¬ msg = "" → recordClosed (st k) →
      recordClosed ((orch_write env st site t "failed" none (some msg) none).2 k) := by
    intro st site msg hm h
    exact orch_write_closed env st site t "failed" none (some msg) none k h
      (fun hcon => absurd hcon (by decide)) (fun _ => by simp [optTruthy_some, hm])
  unfold orch_pipeline
  simp only [orch_write_fst]
  cases hwk : env.writeOk 0 with
  | false =>
    simp only [hwk, Bool.not_false, if_true]
    exact hproc store 0 none (h0 k)
  | true =>
    simp only [hwk, Bool.not_true, Bool.false_eq_true, if_false]
    have hA : recordClosed ((orch_write env store 0 t "processing" none none none).2 k) :=
      hproc store 0 none (h0 k)
    cases hs : env.submit with
    | raised msg => exact hA
    | ret osub =>
      cases osub with
      | none =>
        simp only [dictOptTruthy_none, Bool.not_false, if_true]
        exact hfailw _ 1 _ (by decide) hA
      | some d =>
        cases d with
        | nil =>
          simp only [dictOptTruthy_some, List.isEmpty_nil, Bool.not_true,
            Bool.not_false, if_true]
          exact hfailw _ 1 _ (by decide) hA
        | cons p ds =>
          simp only [dictOptTruthy_some, List.isEmpty_cons, Bool.not_false,
            Bool.not_true, Bool.false_eq_true, if_false, Option.getD_some]
          by_cases hcj : optTruthy (pyGet (p :: ds) "job_id") = true
          · simp only [hcj, Bool.not_true, Bool.false_eq_true, if_false]
            have hB : recordClosed ((orch_write env
                (orch_write env store 0 t "processing" none none none).2 3 t
                "processing" none none (pyGet (p :: ds) "job_id")).2 k) :=
              hproc _ 3 _ hA
            cases hp : env.poll with
            | raised msg => exact hB
            | ret opoll =>
              cases opoll with
              | none =>
                simp only [dictOptTruthy_none, Bool.not_false, if_true]
                exact hfailw _ 4 _ (by decide) hB
              | some fd =>
                cases fd with
                | nil =>
                  simp only [dictOptTruthy_some, List.isEmpty_nil, Bool.not_true,
                    Bool.not_false, if_true]
                  exact hfailw _ 4 _ (by decide) hB
                | cons q qs =>
                  simp only [dictOptTruthy_some, List.isEmpty_cons, Bool.not_false,
                    Bool.not_true, Bool.false_eq_true, if_false, Option.getD_some]
                  by_cases hst1 : (pyGet (q :: qs) "status" == some "completed") = true
                  · simp only [hst1, if_true]
                    by_cases huri : optTruthy (pyGet (q :: qs) "result_s3_uri") = true
                    · simp only [huri, if_true]
                      exact orch_write_closed env _ 5 t "completed"
                        (pyGet (q :: qs) "result_s3_uri") none none k hB
                        (fun _ => huri) (fun hcon => absurd hcon (by decide))
                    · simp only [huri, if_false]
                      exact hfailw _ 6 _ (by decide) hB
                  · simp only [hst1, if_false]
                    by_cases hst2 : (pyGet (q :: qs) "status" == some "failed") = true
                    · simp only [hst2, if_true]
                      have herr : pyGet (q :: qs) "error" ≠ some "" :=
                        hpoll (q :: qs) hp
                      cases hpg : pyGet (q :: qs) "error" with
                      | none => exact hfailw _ 7 _ (by decide) hB
                      | some e =>
                        rw [hpg] at herr
                        have he : ¬ e = "" := fun hcon => herr (by rw [hcon])
                        exact hfailw _ 7 e he hB
                    · simp only [hst2, if_false]
                      exact hB
          · simp only [hcj, Bool.not_false, if_true]
            exact hfailw _ 2 _ (by decide) hA

/-- C2 amended: in the GPU-lane orchestrator adapter, every run of
`process_task` preserves the terminal-field invariant — a COMPLETED record
keeps a non-empty `result_s3_uri` (the adapter demotes a result-less
completion to FAILED) and a FAILED record keeps a non-empty
`error_message` — provided the engine never reports failure with an
empty-string `error`.  (The comfyui-api-service variant violates the
invariant; see the counterexample.) -/
theorem orch_adapter_invariant_closure
    (env : OrchEnv) (store : Store)
    (h0 : ∀ k, recordClosed (store k))
    (hpoll : pollErrorNonEmpty env) :
    ∀ k, recordClosed ((orch_process_task env store).store k) := by
  intro k
  unfold orch_process_task
  cases hb : env.body with
  | invalid => exact h0 k
  | parsed otid oap orb =>
    dsimp only
    by_cases hg : (optTruthy otid && optTruthy oap && dictOptTruthy orb) = true
    · rw [if_pos hg]
      exact orch_pipeline_closed env store (otid.getD "") h0 hpoll k
    · rw [if_neg hg]
      exact h0 k

/-- A full GPU-lane run that ends in the poll-timeout FAILED write. -/
def c2w_env : OrchEnv :=
  { body := MsgBody.parsed (some "t1") (some "/api/v1/camera-angle/jobs")
      (some [("image_url", "https://ex/a.png")])
    writeOk := fun _ => true
    submit := CallResult.ret (some [("job_id", "cj-1")])
    poll := CallResult.ret none
    deleteOk := true
    now := 2 }

/-- C2 witness: the invariant holds after a concrete orchestrator-adapter
run starting from the empty store. -/
theorem orch_adapter_invariant_closure_witness :
    recordClosed ((orch_process_task c2w_env (fun _ => none)).store "t1") :=
  orch_adapter_invariant_closure c2w_env (fun _ => none)
    (fun _ => trivial) (by intro d hd; simp [c2w_env] at hd) "t1"

end ShortDrama
